import Mathlib

/-!
Verification of the camera-calibration interpolation engine
(`CameraCalibrationDatabase` / `GridNode`) from
`Tools/GenerateSelfShadowedBumpMap/GeneratorForm.cs`
(namespace `StandardizedDiffuseAlbedoMaps`).

The C# code works on `float`; we embed its arithmetic over `ℚ`
(exact rationals), so every algebraic step of the code is mirrored
exactly and every concrete run is computable.  The only genuinely
transcendental operation, `Convert2EV` (base-2 logarithms of the shot
parameters), is embedded as a relation over `ℝ` between the raw shot
parameters and the EV triple; the graph / walk / interpolation core
takes the EV triple as an explicit argument, exactly as the C# core
consumes the fields `m_EV_ISOSpeed`, `m_EV_ShutterSpeed`,
`m_EV_Aperture` that `Convert2EV` filled in.

Nodes are stored in a list and identified by their index (creation
order); neighbor slots hold node indices, mirroring the C# object
references.
-/

attribute [local semireducible] Rat.add Rat.sub Rat.mul Rat.inv

set_option maxRecDepth 16000

instance {ε α : Type} [DecidableEq ε] [DecidableEq α] : DecidableEq (Except ε α) :=
  fun a b =>
    match a, b with
    | Except.error e, Except.error f =>
      decidable_of_iff (e = f) (by constructor <;> intro h <;> simp_all)
    | Except.error _, Except.ok _ => isFalse (by intro h; cases h)
    | Except.ok _, Except.error _ => isFalse (by intro h; cases h)
    | Except.ok x, Except.ok y =>
      decidable_of_iff (x = y) (by constructor <;> intro h <;> simp_all)

namespace CameraCalibrationDatabase

/-- `REQUIRED_PROBES_COUNT = 6`: expected number of reflectance probes
in a camera calibration file. -/
def REQUIRED_PROBES_COUNT : ℕ := 6

/-- A camera calibration record: the shot infos
(`m_CameraShotInfos.m_ISOSpeed / m_ShutterSpeed / m_Aperture`) and the
measured luminance of each reflectance probe
(`m_Reflectances[i].m_LuminanceMeasured`). -/
structure CameraCalibration where
  isoSpeed : ℚ
  shutterSpeed : ℚ
  aperture : ℚ
  reflectances : List ℚ
deriving DecidableEq, Repr

/-- `GridNode.Convert2EV`, as the code documents and computes it with
`Math.Log`:
`EV_ISOSpeed = log2(iso/100)`, `EV_ShutterSpeed = log2(shutter)`,
`EV_Aperture = -log2(aperture)`.  Since the logarithm is
transcendental, the embedding states it as a relation over `ℝ`
between the raw shot parameters and the EV triple carried by the
node. -/
def Convert2EV (isoSpeed shutterSpeed aperture evISO evShutter evAperture : ℚ) : Prop :=
  (evISO : ℝ) = Real.logb 2 ((isoSpeed : ℝ) / 100) ∧
  (evShutter : ℝ) = Real.logb 2 (shutterSpeed : ℝ) ∧
  (evAperture : ℝ) = - Real.logb 2 (aperture : ℝ)

/-- One node of the calibration grid (`GridNode`): the EV triple
computed by `Convert2EV` from the wrapped calibration's shot infos,
the wrapped `CameraCalibration`, and the six neighbor slots
`m_NeighborX[0..1]`, `m_NeighborY[0..1]`, `m_NeighborZ[0..1]`,
holding the index of the neighbor node (or `none` for `null`). -/
structure GridNode where
  evISO : ℚ
  evShutter : ℚ
  evAperture : ℚ
  calib : CameraCalibration
  nX0 : Option ℕ := none
  nX1 : Option ℕ := none
  nY0 : Option ℕ := none
  nY1 : Option ℕ := none
  nZ0 : Option ℕ := none
  nZ1 : Option ℕ := none
deriving DecidableEq, Repr

instance : Inhabited GridNode :=
  ⟨{ evISO := 0, evShutter := 0, evAperture := 0
     calib := { isoSpeed := 0, shutterSpeed := 0, aperture := 0, reflectances := [] } }⟩

/-- `GridNode.EV`: the global EV of a node,
`m_EV_ISOSpeed + m_EV_ShutterSpeed + m_EV_Aperture`. -/
def GridNode.EV (n : GridNode) : ℚ :=
  n.evISO + n.evShutter + n.evAperture

/-- `GridNode.SqDistance`: squared EV-space distance between two
nodes. -/
def GridNode.SqDistance (n m : GridNode) : ℚ :=
  (m.evISO - n.evISO) * (m.evISO - n.evISO) +
  (m.evShutter - n.evShutter) * (m.evShutter - n.evShutter) +
  (m.evAperture - n.evAperture) * (m.evAperture - n.evAperture)

/-- The three EV axes of the grid: X = ISO speed, Y = shutter speed,
Z = aperture. -/
inductive Axis | X | Y | Z
deriving DecidableEq, Repr

/-- The EV value of a node on a given axis. -/
def GridNode.axisEV (n : GridNode) : Axis → ℚ
  | Axis.X => n.evISO
  | Axis.Y => n.evShutter
  | Axis.Z => n.evAperture

/-- Neighbor slot of a node: `n.neighbor a i` is `m_NeighborX[i]` when
`a = X` (and similarly for Y, Z); `i` is 0 ("previous") or 1
("next"), any other value is never used. -/
def GridNode.neighbor (n : GridNode) : Axis → ℕ → Option ℕ
  | Axis.X, 0 => n.nX0
  | Axis.X, _ => n.nX1
  | Axis.Y, 0 => n.nY0
  | Axis.Y, _ => n.nY1
  | Axis.Z, 0 => n.nZ0
  | Axis.Z, _ => n.nZ1

/-- Write a neighbor slot of a node (the C# `AxisPlaced[LeftRight] = ...`
array store). -/
def GridNode.setNeighbor (n : GridNode) : Axis → ℕ → Option ℕ → GridNode
  | Axis.X, 0, v => { n with nX0 := v }
  | Axis.X, _, v => { n with nX1 := v }
  | Axis.Y, 0, v => { n with nY0 := v }
  | Axis.Y, _, v => { n with nY1 := v }
  | Axis.Z, 0, v => { n with nZ0 := v }
  | Axis.Z, _, v => { n with nZ1 := v }

/-- All six neighbor slots of a node are unset (a freshly constructed
`GridNode`). -/
def GridNode.slotsEmpty (n : GridNode) : Prop :=
  n.nX0 = none ∧ n.nX1 = none ∧ n.nY0 = none ∧ n.nY1 = none ∧
  n.nZ0 = none ∧ n.nZ1 = none

instance (n : GridNode) : Decidable n.slotsEmpty := by
  unfold GridNode.slotsEmpty; infer_instance

/-- The node stored at index `i` of the node list (C# dereference of a
node object; out-of-range indices never occur in reachable states and
return the default node). -/
def nodeAt (nodes : List GridNode) (i : ℕ) : GridNode :=
  (nodes[i]?).getD default

/-- Fatal errors of the grid-construction loop in the `DatabasePath`
setter.  `duplicateNeighbor` is the
`throw new Exception( "Grid node already has a neighbor!" )` at the
placement step; `noPair` stands for the crash the C# code would have
if the pair scan found no pair (unreachable in reachable states). -/
inductive GridError | duplicateNeighbor | noPair
deriving DecidableEq, Repr

/-- Inner loop of the nearest-pair scan:
`foreach (NodeUnPlaced in GridNodes)` for a fixed placed node `p`,
updating the best pair on strict improvement of the squared
distance. -/
def scanUnplaced (nodes : List GridNode) (p : ℕ) :
    List ℕ → Option (ℕ × ℕ × ℚ) → Option (ℕ × ℕ × ℚ)
  | [], best => best
  | u :: rest, best =>
    let d := (nodeAt nodes p).SqDistance (nodeAt nodes u)
    let best' :=
      match best with
      | none => some (p, u, d)
      | some (bp, bu, bd) => if d < bd then some (p, u, d) else some (bp, bu, bd)
    scanUnplaced nodes p rest best'

/-- Outer loop of the nearest-pair scan:
`foreach (NodePlaced in PlacedNodes)`.  The initial best distance is
`float.MaxValue` in C#; the embedding starts from `none` and the first
scanned pair always becomes the current best, which is the same
behavior for every distance actually computed. -/
def scanPlaced (nodes : List GridNode) :
    List ℕ → List ℕ → Option (ℕ × ℕ × ℚ) → Option (ℕ × ℕ × ℚ)
  | [], _, best => best
  | p :: rest, unplaced, best =>
    scanPlaced nodes rest unplaced (scanUnplaced nodes p unplaced best)

/-- The nearest (placed, unplaced) pair, first-found-wins on ties. -/
def findBestPair (nodes : List GridNode) (placed unplaced : List ℕ) :
    Option (ℕ × ℕ × ℚ) :=
  scanPlaced nodes placed unplaced none

/-- Axis / direction choice of the placement step (lines 1144-1176):
the nested three-way comparison on the absolute per-axis deltas
`Δ = placed - unplaced`, returning the chosen axis and the C#
`LeftRight` slot index (`Δ < 0 ? 0 : 1` on the chosen axis). -/
def chooseAxisLR (dX dY dZ : ℚ) : Axis × ℕ :=
  if |dX| > |dY| then
    if |dX| > |dZ| then
      (Axis.X, if dX < 0 then 0 else 1)
    else
      (Axis.Z, if dZ < 0 then 0 else 1)
  else
    if |dY| > |dZ| then
      (Axis.Y, if dY < 0 then 0 else 1)
    else
      (Axis.Z, if dZ < 0 then 0 else 1)

/-- The per-axis deltas of the placement step
(`DeltaX = PairPlaced.m_EV_ISOSpeed - PairUnPlaced.m_EV_ISOSpeed` and
so on, lines 1140-1142) fed into the axis / direction choice. -/
def stepAxisLR (nodes : List GridNode) (p u : ℕ) : Axis × ℕ :=
  chooseAxisLR ((nodeAt nodes p).evISO - (nodeAt nodes u).evISO)
    ((nodeAt nodes p).evShutter - (nodeAt nodes u).evShutter)
    ((nodeAt nodes p).evAperture - (nodeAt nodes u).evAperture)

/-- One placement step once the pair `(p, u)` is known: compute the
deltas, choose axis and direction (`stepAxisLR`), fail with
`duplicateNeighbor` if the target slot of the placed node is already
occupied (`AxisPlaced[LeftRight] != null`), else store the two
symmetric neighbor links `AxisPlaced[LeftRight] = u`,
`AxisUnPlaced[1-LeftRight] = p`. -/
def placeStep (nodes : List GridNode) (p u : ℕ) :
    Except GridError (List GridNode) :=
  let al := stepAxisLR nodes p u
  if ((nodeAt nodes p).neighbor al.1 al.2).isSome then
    Except.error GridError.duplicateNeighbor
  else
    let nodes1 := nodes.set p ((nodeAt nodes p).setNeighbor al.1 al.2 (some u))
    let nodes2 := nodes1.set u ((nodeAt nodes1 u).setNeighbor al.1 (1 - al.2) (some p))
    Except.ok nodes2

/-- The construction loop `while (GridNodes.Count > 0)` of the
`DatabasePath` setter.  NOTE: exactly as in the code, the placed list
never grows — `PlacedNodes` receives only the root before the loop
and `PlacedNodes.Add` is never called inside it, so every unplaced
node is paired with (and linked to) the root.  On a fatal error the
loop stops and returns the node list as mutated so far, since the C#
exception escapes the setter leaving the partially linked nodes
behind.  The fuel argument makes the recursion structural; the caller
passes the length of the unplaced list, which is exactly the number
of iterations the C# loop performs. -/
def buildLoop (nodes : List GridNode) :
    ℕ → List ℕ → List ℕ → List GridNode × Option GridError
  | _, _, [] => (nodes, none)
  | 0, _, _ :: _ => (nodes, some GridError.noPair)
  | fuel + 1, placed, unplaced@(_ :: _) =>
    match findBestPair nodes placed unplaced with
    | none => (nodes, some GridError.noPair)
    | some (p, u, _) =>
      match placeStep nodes p u with
      | Except.error e => (nodes, some e)
      | Except.ok nodes' => buildLoop nodes' fuel placed (unplaced.erase u)

/-- A calibration file as consumed by the `DatabasePath` setter: the
wrapped `CameraCalibration` plus the EV triple that `Convert2EV`
produces from its shot infos (carried explicitly because the
conversion is logarithmic, see `Convert2EV`; theorems that depend on
the conversion constrain the triple through that relation). -/
structure CalibrationFile where
  calib : CameraCalibration
  evISO : ℚ
  evShutter : ℚ
  evAperture : ℚ
deriving DecidableEq, Repr

/-- The `GridNode` created from a calibration file, all neighbor slots
unset. -/
def CalibrationFile.toNode (f : CalibrationFile) : GridNode :=
  { evISO := f.evISO, evShutter := f.evShutter, evAperture := f.evAperture
    calib := f.calib }

/-- The file-loading loop of the `DatabasePath` setter: each file with
the required probe count yields a node appended to the node list, and
the root is replaced whenever the new node has a strictly smaller
global EV (`Node.EV < m_RootNode.EV`); files with a wrong probe count
are skipped (their load throws and is caught, only adding to the
error log). -/
def loadNodes : List CalibrationFile → List GridNode → Option ℕ →
    List GridNode × Option ℕ
  | [], nodes, root => (nodes, root)
  | f :: rest, nodes, root =>
    if f.calib.reflectances.length = REQUIRED_PROBES_COUNT then
      let node := f.toNode
      let root' :=
        match root with
        | none => some nodes.length
        | some r => if node.EV < (nodeAt nodes r).EV then some nodes.length else root
      loadNodes rest (nodes ++ [node]) root'
    else
      loadNodes rest nodes root

/-- The state of a `CameraCalibrationDatabase` after the
`DatabasePath` setter ran: the node list (with whatever neighbor
links construction managed to set), the root node index
(`m_RootNode`, `none` for `null`), the cached
`m_PreparedForISOSpeed / ShutterSpeed / Aperture` triple (initialized
to zero), and `m_InterpolatedCalibration` (the interpolated per-probe
luminances, `none` for `null`). -/
structure DBState where
  nodes : List GridNode
  rootIdx : Option ℕ
  preparedForISOSpeed : ℚ := 0
  preparedForShutterSpeed : ℚ := 0
  preparedForAperture : ℚ := 0
  interpolatedCalibration : Option (List ℚ) := none
deriving DecidableEq, Repr

/-- The `DatabasePath` setter on a fresh (or freshly cleaned-up)
database: load the files, and if at least one was valid, build the
calibration grid from the root.  The second component records the
fatal construction error, if any; in that case the returned state is
what the C# object holds after the exception escaped the setter — in
particular the root found during loading is still set. -/
def loadDatabase (files : List CalibrationFile) : DBState × Option GridError :=
  let ld := loadNodes files [] none
  match ld.2 with
  | none => ({ nodes := ld.1, rootIdx := none }, none)
  | some r =>
    let unplaced := (List.range ld.1.length).erase r
    let built := buildLoop ld.1 unplaced.length [r] unplaced
    ({ nodes := built.1, rootIdx := some r }, built.2)

/-- `IsValid`: the database is valid iff the root node is set. -/
def IsValid (st : DBState) : Bool :=
  st.rootIdx.isSome

/-- One of the three greedy walks of `FindStartNode`: starting from
`cur`, while the current node's EV on the axis is `≤ target` and its
"next" slot (index 1) on the axis is set, look at the next node; stop
if its axis EV exceeds `target`, else move to it.  The fuel makes the
recursion structural; callers pass the node count, which bounds every
terminating C# walk (a longer walk would revisit a node and the C#
loop would not terminate at all). -/
def walkNext (nodes : List GridNode) (a : Axis) (target : ℚ) :
    ℕ → ℕ → ℕ
  | 0, cur => cur
  | fuel + 1, cur =>
    let n := nodeAt nodes cur
    if n.axisEV a ≤ target then
      match n.neighbor a 1 with
      | none => cur
      | some nxt =>
        if target < (nodeAt nodes nxt).axisEV a then cur
        else walkNext nodes a target fuel nxt
    else cur

/-- `FindStartNode`: three sequential greedy walks from the root,
along X with the first argument, then along Y with the second, then
along Z with the third — each walk starting from the node the
previous one reached.  NOTE: as in the code, the walk thresholds are
whatever `PrepareCalibrationFor` passes in, namely the RAW shot
parameters, while the node values compared against them are EV
values. -/
def FindStartNode (nodes : List GridNode) (root : ℕ)
    (isoSpeed shutterSpeed aperture : ℚ) : ℕ :=
  let cx := walkNext nodes Axis.X isoSpeed nodes.length root
  let cy := walkNext nodes Axis.Y shutterSpeed nodes.length cx
  walkNext nodes Axis.Z aperture nodes.length cy

/-- The 8 corners of the interpolation cell (indices into the node
list), as assembled by `PrepareCalibrationFor` lines 1249-1256: each
step takes the "next" neighbor along one axis and falls back to the
node itself when the slot is `null`. -/
structure Cell where
  g000 : ℕ
  g100 : ℕ
  g010 : ℕ
  g001 : ℕ
  g110 : ℕ
  g011 : ℕ
  g101 : ℕ
  g111 : ℕ
deriving DecidableEq, Repr

/-- Assemble the cell from the start node, mirroring the order and the
fallbacks of the code (`Grid[i,j,k] = X.m_Neighbor?[1] != null ? ... : X`). -/
def buildCell (nodes : List GridNode) (s : ℕ) : Cell :=
  let g100 := ((nodeAt nodes s).neighbor Axis.X 1).getD s
  let g010 := ((nodeAt nodes s).neighbor Axis.Y 1).getD s
  let g001 := ((nodeAt nodes s).neighbor Axis.Z 1).getD s
  let g110 := ((nodeAt nodes g100).neighbor Axis.Y 1).getD g100
  let g011 := ((nodeAt nodes g010).neighbor Axis.Z 1).getD g010
  let g101 := ((nodeAt nodes g001).neighbor Axis.X 1).getD g001
  let g111 := ((nodeAt nodes g110).neighbor Axis.Z 1).getD g110
  { g000 := s, g100 := g100, g010 := g010, g001 := g001
    g110 := g110, g011 := g011, g101 := g101, g111 := g111 }

/-- One clamped interpolation factor:
`Math.Max(0, Math.Min(1, (target - lo) / Math.Max(1e-6, hi - lo)))`. -/
def interpFactor (target lo hi : ℚ) : ℚ :=
  max 0 (min 1 ((target - lo) / max (1 / 1000000) (hi - lo)))

/-- The four X interpolants `tX` of `PrepareCalibrationFor`
(lines 1262-1267), one per (Y, Z) corner pair.  Components `.1 .2.1
.2.2.1 .2.2.2` are the C# `tX.x .y .z .w`. -/
def tXof (nodes : List GridNode) (c : Cell) (evX : ℚ) : ℚ × ℚ × ℚ × ℚ :=
  (interpFactor evX (nodeAt nodes c.g000).evISO (nodeAt nodes c.g100).evISO,
   interpFactor evX (nodeAt nodes c.g010).evISO (nodeAt nodes c.g110).evISO,
   interpFactor evX (nodeAt nodes c.g001).evISO (nodeAt nodes c.g101).evISO,
   interpFactor evX (nodeAt nodes c.g011).evISO (nodeAt nodes c.g111).evISO)

/-- The four X-interpolated shutter speed EVs (`ShutterSpeedsX`). -/
def shutterSpeedsXof (nodes : List GridNode) (c : Cell) (evX : ℚ) :
    ℚ × ℚ × ℚ × ℚ :=
  let t := tXof nodes c evX
  ((1 - t.1) * (nodeAt nodes c.g000).evShutter + t.1 * (nodeAt nodes c.g100).evShutter,
   (1 - t.2.1) * (nodeAt nodes c.g010).evShutter + t.2.1 * (nodeAt nodes c.g110).evShutter,
   (1 - t.2.2.1) * (nodeAt nodes c.g001).evShutter + t.2.2.1 * (nodeAt nodes c.g101).evShutter,
   (1 - t.2.2.2) * (nodeAt nodes c.g011).evShutter + t.2.2.2 * (nodeAt nodes c.g111).evShutter)

/-- The four X-interpolated aperture EVs (`AperturesX`). -/
def aperturesXof (nodes : List GridNode) (c : Cell) (evX : ℚ) :
    ℚ × ℚ × ℚ × ℚ :=
  let t := tXof nodes c evX
  ((1 - t.1) * (nodeAt nodes c.g000).evAperture + t.1 * (nodeAt nodes c.g100).evAperture,
   (1 - t.2.1) * (nodeAt nodes c.g010).evAperture + t.2.1 * (nodeAt nodes c.g110).evAperture,
   (1 - t.2.2.1) * (nodeAt nodes c.g001).evAperture + t.2.2.1 * (nodeAt nodes c.g101).evAperture,
   (1 - t.2.2.2) * (nodeAt nodes c.g011).evAperture + t.2.2.2 * (nodeAt nodes c.g111).evAperture)

/-- The two Y interpolants `tY` (lines 1285-1288), one per Z. -/
def tYof (nodes : List GridNode) (c : Cell) (evX evY : ℚ) : ℚ × ℚ :=
  let s := shutterSpeedsXof nodes c evX
  (interpFactor evY s.1 s.2.1, interpFactor evY s.2.2.1 s.2.2.2)

/-- The two X-and-Y-interpolated aperture EVs (`AperturesY`). -/
def aperturesYof (nodes : List GridNode) (c : Cell) (evX evY : ℚ) : ℚ × ℚ :=
  let a := aperturesXof nodes c evX
  let t := tYof nodes c evX evY
  ((1 - t.1) * a.1 + t.1 * a.2.1, (1 - t.2) * a.2.2.1 + t.2 * a.2.2.2)

/-- The single Z interpolant `tZ` (line 1297). -/
def tZof (nodes : List GridNode) (c : Cell) (evX evY evZ : ℚ) : ℚ :=
  let a := aperturesYof nodes c evX evY
  interpFactor evZ a.1 a.2

/-- Measured luminance of probe `i` of the node at index `g`
(`Grid[...].m_CameraCalibration.m_Reflectances[i].m_LuminanceMeasured`). -/
def probeLum (nodes : List GridNode) (g : ℕ) (i : ℕ) : ℚ :=
  ((nodeAt nodes g).calib.reflectances.getD i 0)

/-- The per-probe luminance reduction of the interpolation loop
(lines 1304-1331).  Exactly as in the code, all four X blends of the
luminances use the FIRST component `tX.x` of the X interpolants,
while the Y and Z blends use `tY.x / tY.y` and `tZ`. -/
def interpolateCell (nodes : List GridNode) (c : Cell) (evX evY evZ : ℚ) :
    List ℚ :=
  let tX := (tXof nodes c evX).1
  let tY := tYof nodes c evX evY
  let tZ := tZof nodes c evX evY evZ
  (List.range REQUIRED_PROBES_COUNT).map fun i =>
    let l00 := (1 - tX) * probeLum nodes c.g000 i + tX * probeLum nodes c.g100 i
    let l10 := (1 - tX) * probeLum nodes c.g010 i + tX * probeLum nodes c.g110 i
    let l01 := (1 - tX) * probeLum nodes c.g001 i + tX * probeLum nodes c.g101 i
    let l11 := (1 - tX) * probeLum nodes c.g011 i + tX * probeLum nodes c.g111 i
    let l0 := (1 - tY.1) * l00 + tY.1 * l10
    let l1 := (1 - tY.2) * l01 + tY.2 * l11
    (1 - tZ) * l0 + tZ * l1

/-- Errors thrown by `PrepareCalibrationFor` / `Calibrate`:
`graphNotBuilt` is "Calibration grid hasn't been built", `notPrepared`
is "Calibration grid hasn't been prepared for calibration". -/
inductive CalibError | graphNotBuilt | notPrepared
deriving DecidableEq, Repr

/-- `PrepareCalibrationFor(iso, shutter, aperture)`: fail if the root
is not set; otherwise record the prepared-for triple, convert the
shot parameters to the EV triple (passed here explicitly, see
`Convert2EV`), find the start node — called, as in the code, with the
RAW shot parameters —, build the cell and store the interpolated
calibration. -/
def PrepareCalibrationFor (st : DBState)
    (isoSpeed shutterSpeed aperture evX evY evZ : ℚ) :
    Except CalibError DBState :=
  match st.rootIdx with
  | none => Except.error CalibError.graphNotBuilt
  | some root =>
    let start := FindStartNode st.nodes root isoSpeed shutterSpeed aperture
    let cell := buildCell st.nodes start
    let lums := interpolateCell st.nodes cell evX evY evZ
    Except.ok { st with
      preparedForISOSpeed := isoSpeed
      preparedForShutterSpeed := shutterSpeed
      preparedForAperture := aperture
      interpolatedCalibration := some lums }

/-- `IsPreparedFor`: all three shot parameters match the cached
prepared-for triple within `1e-6` absolute tolerance. -/
def IsPreparedFor (st : DBState) (isoSpeed shutterSpeed aperture : ℚ) : Bool :=
  decide (|isoSpeed - st.preparedForISOSpeed| < 1 / 1000000) &&
  decide (|shutterSpeed - st.preparedForShutterSpeed| < 1 / 1000000) &&
  decide (|aperture - st.preparedForAperture| < 1 / 1000000)

/-- Modelled from the spec: the luminance-to-luminance correction
curve `CameraCalibration.Calibrate` applied by the interpolated
calibration.  The `CameraCalibration` class body is not under `src/`
(only its use sites are); the spec leaves the curve as an external
collaborator that consumes the interpolated probe luminances, and no
claim depends on its value, so the stand-in returns the input
luminance. -/
def applyCalibration (probes : List ℚ) (lum : ℚ) : ℚ :=
  lum

/-- `Calibrate(luminance)`: fail with `graphNotBuilt` if the root is
not set, with `notPrepared` if no interpolated calibration is cached,
else apply the interpolated calibration's correction curve. -/
def Calibrate (st : DBState) (lum : ℚ) : Except CalibError ℚ :=
  match st.rootIdx with
  | none => Except.error CalibError.graphNotBuilt
  | some _ =>
    match st.interpolatedCalibration with
    | none => Except.error CalibError.notPrepared
    | some probes => Except.ok (applyCalibration probes lum)

/-- The delta of the chosen axis, for stating properties of
`chooseAxisLR`. -/
def deltaOf (dX dY dZ : ℚ) : Axis → ℚ
  | Axis.X => dX
  | Axis.Y => dY
  | Axis.Z => dZ

/-- The placement step with BOTH written slots checked for occupancy:
the code checks only the placed node's slot, and `placeStepStrict`
additionally faults if the unplaced node's symmetric slot is already
occupied, i.e. if the unchecked second store would overwrite a link.
Comparing the construction run against this strict variant expresses
that a neighbor slot, once set, is never overwritten. -/
def placeStepStrict (nodes : List GridNode) (p u : ℕ) :
    Except GridError (List GridNode) :=
  let al := stepAxisLR nodes p u
  if ((nodeAt nodes p).neighbor al.1 al.2).isSome then
    Except.error GridError.duplicateNeighbor
  else
    let nodes1 := nodes.set p ((nodeAt nodes p).setNeighbor al.1 al.2 (some u))
    if ((nodeAt nodes1 u).neighbor al.1 (1 - al.2)).isSome then
      Except.error GridError.duplicateNeighbor
    else
      let nodes2 := nodes1.set u ((nodeAt nodes1 u).setNeighbor al.1 (1 - al.2) (some p))
      Except.ok nodes2

/-- The construction loop built on the strict placement step. -/
def buildLoopStrict (nodes : List GridNode) :
    ℕ → List ℕ → List ℕ → List GridNode × Option GridError
  | _, _, [] => (nodes, none)
  | 0, _, _ :: _ => (nodes, some GridError.noPair)
  | fuel + 1, placed, unplaced@(_ :: _) =>
    match findBestPair nodes placed unplaced with
    | none => (nodes, some GridError.noPair)
    | some (p, u, _) =>
      match placeStepStrict nodes p u with
      | Except.error e => (nodes, some e)
      | Except.ok nodes' => buildLoopStrict nodes' fuel placed (unplaced.erase u)

/-- `loadDatabase` built on the strict construction loop. -/
def loadDatabaseStrict (files : List CalibrationFile) : DBState × Option GridError :=
  let ld := loadNodes files [] none
  match ld.2 with
  | none => ({ nodes := ld.1, rootIdx := none }, none)
  | some r =>
    let unplaced := (List.range ld.1.length).erase r
    let built := buildLoopStrict ld.1 unplaced.length [r] unplaced
    ({ nodes := built.1, rootIdx := some r }, built.2)

/-!  Concrete calibration files used by the scenario theorems. -/

/-- The spec scenario's sample A: ISO 100, 1s, f/1.0, whose EV triple
is (0, 0, 0) (`log2(100/100) = 0`, `log2 1 = 0`, `-log2 1 = 0`), with
six probe luminances all 10. -/
def fileA100 : CalibrationFile :=
  { calib := { isoSpeed := 100, shutterSpeed := 1, aperture := 1
               reflectances := [10, 10, 10, 10, 10, 10] }
    evISO := 0, evShutter := 0, evAperture := 0 }

/-- The spec scenario's sample B: ISO 200, 1s, f/1.0, whose EV triple
is (1, 0, 0) (`log2(200/100) = 1`), with six probe luminances all 20. -/
def fileB200 : CalibrationFile :=
  { calib := { isoSpeed := 200, shutterSpeed := 1, aperture := 1
               reflectances := [20, 20, 20, 20, 20, 20] }
    evISO := 1, evShutter := 0, evAperture := 0 }

/-- Three calibration files sharing the EV triple (0, 0, 0) but with
distinct luminances (coincident samples). -/
def coincFile1 : CalibrationFile :=
  { calib := { isoSpeed := 100, shutterSpeed := 1, aperture := 1
               reflectances := [1, 1, 1, 1, 1, 1] }
    evISO := 0, evShutter := 0, evAperture := 0 }

/-- Second coincident sample, luminances all 2. -/
def coincFile2 : CalibrationFile :=
  { calib := { isoSpeed := 100, shutterSpeed := 1, aperture := 1
               reflectances := [2, 2, 2, 2, 2, 2] }
    evISO := 0, evShutter := 0, evAperture := 0 }

/-- Third coincident sample, luminances all 3. -/
def coincFile3 : CalibrationFile :=
  { calib := { isoSpeed := 100, shutterSpeed := 1, aperture := 1
               reflectances := [3, 3, 3, 3, 3, 3] }
    evISO := 0, evShutter := 0, evAperture := 0 }

/-- A sample with EV triple (2, -2, -2): ISO 400, 1/4 s, f/4.0.  Its
summed EV is -2, smaller than `fileLow`'s 0, so it becomes the root
of the two-sample database below. -/
def fileHigh : CalibrationFile :=
  { calib := { isoSpeed := 400, shutterSpeed := 1 / 4, aperture := 4
               reflectances := [5, 5, 5, 5, 5, 5] }
    evISO := 2, evShutter := -2, evAperture := -2 }

/-- A sample with EV triple (-2, 1, 1): ISO 25, 2 s, f/0.707...; EV-X
is 4 below `fileHigh`'s, the dominant axis, so construction links it
on `fileHigh`'s X slots. -/
def fileLow : CalibrationFile :=
  { calib := { isoSpeed := 25, shutterSpeed := 2, aperture := 1 / 2
               reflectances := [7, 7, 7, 7, 7, 7] }
    evISO := -2, evShutter := 1, evAperture := 1 }

/-! ## Helper lemmas -/

/-- The placement step fails (necessarily with the duplicate-neighbor
error) exactly when the target slot on the placed node is already
occupied. -/
lemma placeStep_error_iff (nodes : List GridNode) (p u : ℕ) :
    placeStep nodes p u = Except.error GridError.duplicateNeighbor ↔
      ((nodeAt nodes p).neighbor (stepAxisLR nodes p u).1
        (stepAxisLR nodes p u).2).isSome = true := by
  simp only [placeStep, stepAxisLR]
  split_ifs with h
  · simp [h]
  · simp [h]

/-- Reading any index other than the written one is unchanged by a
list update. -/
lemma nodeAt_set_ne (nodes : List GridNode) (j : ℕ) (x : GridNode) (i : ℕ)
    (h : i ≠ j) : nodeAt (nodes.set j x) i = nodeAt nodes i := by
  unfold nodeAt
  rw [List.getElem?_set_ne (Ne.symm h)]

/-- A node with all slots empty has every neighbor slot `none`. -/
lemma slotsEmpty_neighbor {n : GridNode} (h : n.slotsEmpty) (a : Axis) (i : ℕ) :
    n.neighbor a i = none := by
  obtain ⟨h1, h2, h3, h4, h5, h6⟩ := h
  cases a <;> cases i <;> simp_all [GridNode.neighbor]

/-- When the unplaced node still has all slots empty (as every
unplaced node does during construction), the strict placement step
coincides with the code's placement step: the unchecked second store
never overwrites anything. -/
lemma placeStepStrict_eq (nodes : List GridNode) (p u : ℕ) (hpu : p ≠ u)
    (hu : (nodeAt nodes u).slotsEmpty) :
    placeStepStrict nodes p u = placeStep nodes p u := by
  simp only [placeStepStrict, placeStep]
  split_ifs with h1 h2
  · rfl
  · exfalso
    rw [nodeAt_set_ne nodes p _ u (Ne.symm hpu), slotsEmpty_neighbor hu] at h2
    simp at h2
  · rfl

/-- A successful placement step only modifies the two nodes of the
pair. -/
lemma placeStep_ok_nodeAt {nodes : List GridNode} {p u : ℕ}
    {nodes' : List GridNode} (h : placeStep nodes p u = Except.ok nodes')
    (v : ℕ) (hvp : v ≠ p) (hvu : v ≠ u) :
    nodeAt nodes' v = nodeAt nodes v := by
  simp only [placeStep] at h
  by_cases h1 : ((nodeAt nodes p).neighbor (stepAxisLR nodes p u).1
      (stepAxisLR nodes p u).2).isSome = true
  · rw [if_pos h1] at h
    exact absurd h (by simp)
  · rw [if_neg h1] at h
    injection h with h2
    subst h2
    rw [nodeAt_set_ne _ u _ v hvu, nodeAt_set_ne _ p _ v hvp]

/-- A result produced by the inner pair scan either was the incoming
best pair or pairs the fixed placed node with one of the scanned
unplaced nodes. -/
lemma scanUnplaced_mem (nodes : List GridNode) (p : ℕ) :
    ∀ (us : List ℕ) (best : Option (ℕ × ℕ × ℚ)) (r : ℕ × ℕ × ℚ),
      scanUnplaced nodes p us best = some r →
      best = some r ∨ (r.1 = p ∧ r.2.1 ∈ us) := by
  intro us
  induction us with
  | nil => intro best r h; exact Or.inl h
  | cons u rest ih =>
    intro best r h
    simp only [scanUnplaced] at h
    rcases ih _ r h with hb | ⟨hp, hm⟩
    · cases best with
      | none =>
        dsimp only at hb
        injection hb with hb'
        subst hb'
        exact Or.inr ⟨rfl, List.mem_cons_self u rest⟩
      | some b =>
        obtain ⟨bp, bu, bd⟩ := b
        dsimp only at hb
        split_ifs at hb with hlt
        · injection hb with hb'
          subst hb'
          exact Or.inr ⟨rfl, List.mem_cons_self u rest⟩
        · exact Or.inl hb
    · exact Or.inr ⟨hp, List.mem_cons_of_mem u hm⟩

/-- A result produced by the pair scan either was the incoming best
pair or pairs a placed node with an unplaced one. -/
lemma scanPlaced_mem (nodes : List GridNode) :
    ∀ (ps us : List ℕ) (best : Option (ℕ × ℕ × ℚ)) (r : ℕ × ℕ × ℚ),
      scanPlaced nodes ps us best = some r →
      best = some r ∨ (r.1 ∈ ps ∧ r.2.1 ∈ us) := by
  intro ps
  induction ps with
  | nil => intro us best r h; exact Or.inl h
  | cons p rest ih =>
    intro us best r h
    simp only [scanPlaced] at h
    rcases ih us _ r h with hb | ⟨hp, hm⟩
    · rcases scanUnplaced_mem nodes p us best r hb with hb2 | ⟨hp2, hm2⟩
      · exact Or.inl hb2
      · refine Or.inr ⟨?_, hm2⟩
        rw [hp2]
        exact List.mem_cons_self p rest
    · exact Or.inr ⟨List.mem_cons_of_mem p hp, hm⟩

/-- The nearest pair really is a (placed, unplaced) pair. -/
lemma findBestPair_mem {nodes : List GridNode} {placed unplaced : List ℕ}
    {r : ℕ × ℕ × ℚ} (h : findBestPair nodes placed unplaced = some r) :
    r.1 ∈ placed ∧ r.2.1 ∈ unplaced := by
  rcases scanPlaced_mem nodes placed unplaced none r h with hb | hm
  · cases hb
  · exact hm

/-- One-step unfolding of the construction loop on a nonempty
unplaced list. -/
lemma buildLoop_cons (nodes : List GridNode) (fuel : ℕ) (placed : List ℕ)
    (u0 : ℕ) (rest : List ℕ) :
    buildLoop nodes (fuel + 1) placed (u0 :: rest) =
      match findBestPair nodes placed (u0 :: rest) with
      | none => (nodes, some GridError.noPair)
      | some (p, u, _) =>
        match placeStep nodes p u with
        | Except.error e => (nodes, some e)
        | Except.ok nodes' =>
          buildLoop nodes' fuel placed ((u0 :: rest).erase u) :=
  rfl

/-- One-step unfolding of the strict construction loop on a nonempty
unplaced list. -/
lemma buildLoopStrict_cons (nodes : List GridNode) (fuel : ℕ) (placed : List ℕ)
    (u0 : ℕ) (rest : List ℕ) :
    buildLoopStrict nodes (fuel + 1) placed (u0 :: rest) =
      match findBestPair nodes placed (u0 :: rest) with
      | none => (nodes, some GridError.noPair)
      | some (p, u, _) =>
        match placeStepStrict nodes p u with
        | Except.error e => (nodes, some e)
        | Except.ok nodes' =>
          buildLoopStrict nodes' fuel placed ((u0 :: rest).erase u) :=
  rfl

/-- Main invariant argument: as long as every unplaced node still has
all slots empty, the unplaced list has no duplicates, and no placed
index is still unplaced, the construction loop behaves exactly like
its strict variant — no store ever overwrites an occupied slot. -/
lemma buildLoop_eq_strict :
    ∀ (fuel : ℕ) (nodes : List GridNode) (placed unplaced : List ℕ),
      (∀ v ∈ unplaced, (nodeAt nodes v).slotsEmpty) →
      unplaced.Nodup →
      (∀ x ∈ placed, x ∉ unplaced) →
      buildLoopStrict nodes fuel placed unplaced =
        buildLoop nodes fuel placed unplaced := by
  intro fuel
  induction fuel with
  | zero =>
    intro nodes placed unplaced _ _ _
    cases unplaced <;> rfl
  | succ fuel ih =>
    intro nodes placed unplaced hemp hnd hdisj
    cases unplaced with
    | nil => rfl
    | cons u0 rest =>
      rw [buildLoop_cons, buildLoopStrict_cons]
      cases hfp : findBestPair nodes placed (u0 :: rest) with
      | none => rfl
      | some r =>
        obtain ⟨p, u, d⟩ := r
        obtain ⟨hp, hu⟩ := findBestPair_mem hfp
        dsimp only
        rw [placeStepStrict_eq nodes p u
          (fun he => (hdisj p hp) (he ▸ hu)) (hemp u hu)]
        cases hps : placeStep nodes p u with
        | error e => rfl
        | ok nodes2 =>
          apply ih
          · intro v hv
            have hvin : v ∈ u0 :: rest := List.mem_of_mem_erase hv
            have hvu : v ≠ u := by
              intro he
              subst he
              exact (List.Nodup.not_mem_erase hnd) hv
            have hvp : v ≠ p := fun he => (hdisj p hp) (he ▸ hvin)
            rw [placeStep_ok_nodeAt hps v hvp hvu]
            exact hemp v hvin
          · exact List.Nodup.erase u hnd
          · exact fun x hx hmem => (hdisj x hx) (List.mem_of_mem_erase hmem)

/-- Every node created by the file-loading loop has all slots empty. -/
lemma loadNodes_slotsEmpty :
    ∀ (files : List CalibrationFile) (nodes : List GridNode) (root : Option ℕ),
      (∀ i, (nodeAt nodes i).slotsEmpty) →
      ∀ i, (nodeAt (loadNodes files nodes root).1 i).slotsEmpty := by
  intro files
  induction files with
  | nil => intro nodes root h i; exact h i
  | cons f rest ih =>
    intro nodes root h i
    rw [loadNodes]
    split_ifs with hf
    · apply ih
      intro j
      unfold nodeAt
      rcases lt_trichotomy j nodes.length with hj | hj | hj
      · rw [List.getElem?_append_left hj]
        exact h j
      · subst hj
        rw [List.getElem?_append_right (Nat.le_refl _), Nat.sub_self]
        exact ⟨rfl, rfl, rfl, rfl, rfl, rfl⟩
      · rw [List.getElem?_append_right (le_of_lt hj),
          List.getElem?_eq_none (by simp; omega)]
        exact ⟨rfl, rfl, rfl, rfl, rfl, rfl⟩
    · exact ih nodes root h i

/-- After any `loadDatabase`, the cached prepared-for triple is zero
and no interpolated calibration is cached (the C# fields are
initialized, or reset by the setter's cleanup, to `0` / `null`). -/
lemma loadDatabase_fresh_fields (files : List CalibrationFile) :
    (loadDatabase files).1.preparedForISOSpeed = 0 ∧
    (loadDatabase files).1.preparedForShutterSpeed = 0 ∧
    (loadDatabase files).1.preparedForAperture = 0 ∧
    (loadDatabase files).1.interpolatedCalibration = none := by
  unfold loadDatabase
  cases h : (loadNodes files [] none).2 <;> simp [h]

/-- The file-loading loop ends with no root exactly when it started
with none and no file had the required probe count. -/
lemma loadNodes_root_none (files : List CalibrationFile) :
    ∀ (nodes : List GridNode) (root : Option ℕ),
      ((loadNodes files nodes root).2 = none ↔
        (root = none ∧
          ∀ f ∈ files, f.calib.reflectances.length ≠ REQUIRED_PROBES_COUNT)) := by
  induction files with
  | nil => intro nodes root; simp [loadNodes]
  | cons f rest ih =>
    intro nodes root
    unfold loadNodes
    by_cases hf : f.calib.reflectances.length = REQUIRED_PROBES_COUNT
    · rw [if_pos hf, ih]
      constructor
      · rintro ⟨hr, -⟩
        exfalso
        cases root with
        | none => simp at hr
        | some r =>
          dsimp at hr
          split at hr <;> simp_all
      · rintro ⟨-, hall⟩
        exact absurd hf (hall f (List.mem_cons_self f rest))
    · rw [if_neg hf, ih]
      constructor
      · rintro ⟨h1, h2⟩
        refine ⟨h1, fun g hg => ?_⟩
        rcases List.mem_cons.mp hg with rfl | hg
        · exact hf
        · exact h2 g hg
      · rintro ⟨h1, h2⟩
        exact ⟨h1, fun g hg => h2 g (List.mem_cons_of_mem f hg)⟩

/-- The database root is unset after `loadDatabase` exactly when no
file had the required probe count. -/
lemma loadDatabase_root_none (files : List CalibrationFile) :
    ((loadDatabase files).1.rootIdx = none ↔
      ∀ f ∈ files, f.calib.reflectances.length ≠ REQUIRED_PROBES_COUNT) := by
  have h := loadNodes_root_none files [] none
  simp only [loadDatabase]
  rcases hld : loadNodes files [] none with ⟨ns, root⟩
  rw [hld] at h
  cases root with
  | none => exact ⟨fun _ => (h.mp rfl).2, fun _ => rfl⟩
  | some r =>
    constructor
    · intro hc; exact absurd hc (by simp)
    · intro hall; exact absurd (h.mpr ⟨rfl, hall⟩) (by simp)

/-! ## Claim theorems -/

/-- C10: on a freshly loaded database on which `PrepareCalibrationFor`
has never been called, `IsPreparedFor(0, 0, 0)` returns `true` (the
cached prepared-for triple is initialized to zeros) even though
`Calibrate` still fails with the not-prepared error whenever the graph
root is set. -/
theorem C10_fresh_isPreparedFor_zero (files : List CalibrationFile)
    (st : DBState) (err : Option GridError)
    (h : loadDatabase files = (st, err)) (hroot : st.rootIdx.isSome = true)
    (lum : ℚ) :
    IsPreparedFor st 0 0 0 = true ∧
    Calibrate st lum = Except.error CalibError.notPrepared := by
  obtain ⟨h1, h2, h3, h4⟩ := loadDatabase_fresh_fields files
  rw [h] at h1 h2 h3 h4
  dsimp at h1 h2 h3 h4
  obtain ⟨r, hr⟩ := Option.isSome_iff_exists.mp hroot
  constructor
  · unfold IsPreparedFor
    rw [h1, h2, h3]
    decide
  · unfold Calibrate
    rw [hr, h4]

/-- C10 witness: the two-sample database freshly loaded. -/
theorem C10_fresh_isPreparedFor_zero_witness :
    IsPreparedFor (loadDatabase [fileA100, fileB200]).1 0 0 0 = true ∧
    Calibrate (loadDatabase [fileA100, fileB200]).1 5 =
      Except.error CalibError.notPrepared :=
  C10_fresh_isPreparedFor_zero [fileA100, fileB200]
    (loadDatabase [fileA100, fileB200]).1 (loadDatabase [fileA100, fileB200]).2
    rfl (by decide) 5

/-- C9 counterexample: a database of three EV-coincident samples makes
the construction loop abort with the duplicate-neighbor error — the
graph is never successfully built — and yet `PrepareCalibrationFor`
succeeds, because the root node was already set during file loading
and the code only ever checks the root for null.  So "prepareFor
fails with GraphNotBuiltError if and only if the graph was never
successfully built" is false. -/
theorem C9_counterexample :
    (loadDatabase [coincFile1, coincFile2, coincFile3]).2 =
      some GridError.duplicateNeighbor ∧
    (loadDatabase [coincFile1, coincFile2, coincFile3]).1.rootIdx = some 0 ∧
    (PrepareCalibrationFor (loadDatabase [coincFile1, coincFile2, coincFile3]).1
        100 1 1 0 0 0).isOk = true := by
  decide

/-- C9 amended: `PrepareCalibrationFor` fails — always with the
graph-not-built error — if and only if the root node is unset, which
after a load happens exactly when no file had the required probe
count (NOT "iff the graph was never successfully built": an aborted
construction leaves the root set); `Calibrate` fails with the
not-prepared error if and only if the root is set but no interpolated
calibration is cached.  Both are plain synchronous results of the
call, not retried. -/
theorem C9_amended :
    (∀ (st : DBState) (iso sh ap ex ey ez : ℚ) (e : CalibError),
        PrepareCalibrationFor st iso sh ap ex ey ez = Except.error e ↔
          (st.rootIdx = none ∧ e = CalibError.graphNotBuilt)) ∧
    (∀ (st : DBState) (lum : ℚ),
        Calibrate st lum = Except.error CalibError.notPrepared ↔
          (st.rootIdx ≠ none ∧ st.interpolatedCalibration = none)) ∧
    (∀ files : List CalibrationFile,
        ((loadDatabase files).1.rootIdx = none ↔
          ∀ f ∈ files, f.calib.reflectances.length ≠ REQUIRED_PROBES_COUNT)) := by
  refine ⟨?_, ?_, loadDatabase_root_none⟩
  · intro st iso sh ap ex ey ez e
    unfold PrepareCalibrationFor
    cases st.rootIdx <;> simp [eq_comm]
  · intro st lum
    unfold Calibrate
    cases st.rootIdx with
    | none => simp
    | some r => cases h : st.interpolatedCalibration <;> simp [h]

/-- C7 counterexample: constructing a graph from exactly two
EV-coincident samples does NOT raise the duplicate-neighbor error:
the pair is linked along the Z axis (tie-breaking falls through to Z,
and the slots involved are still free) and construction succeeds. -/
theorem C7_counterexample :
    (loadDatabase [coincFile1, coincFile2]).2 = none ∧
    (nodeAt (loadDatabase [coincFile1, coincFile2]).1.nodes 0).nZ1 = some 1 ∧
    (nodeAt (loadDatabase [coincFile1, coincFile2]).1.nodes 1).nZ0 = some 0 := by
  decide

/-- C7 amended: two coincident-EV samples alone build successfully
(linked along Z); it takes THREE pairwise coincident-EV samples for
construction to deterministically raise the duplicate-neighbor fatal
error (the third one is paired with the root again, whose Z "next"
slot is already taken). -/
theorem C7_amended_three_coincident :
    (loadDatabase [coincFile1, coincFile2]).2 = none ∧
    (loadDatabase [coincFile1, coincFile2, coincFile3]).2 =
      some GridError.duplicateNeighbor := by
  decide

/-- C5 counterexample: on a tie `|Δiso| = |Δshutter|` (with `|Δaperture|`
smaller), the nested comparison picks the Y axis, not X — the claimed
X-over-Y tie precedence is false. -/
theorem C5_counterexample :
    (chooseAxisLR 1 1 0).1 = Axis.Y ∧ (chooseAxisLR 1 1 0).1 ≠ Axis.X := by
  decide

/-- C3 (code bug, evaluated at the failing input): for the pair
p = A (EV (0,0,0), placed root) and u = B (EV (1,0,0), unplaced),
the per-axis delta is `Δiso = -1 < 0`, and the code selects slot index
`LeftRight = 0`: it stores B in A's "previous" X slot (index 0) and A
in B's "next" X slot (index 1) — exactly the opposite of the claimed
(and internally documented) direction. -/
theorem C3_delta_negative_fills_previous_slot :
    (chooseAxisLR (-1) 0 0) = (Axis.X, 0) ∧
    (nodeAt (loadDatabase [fileA100, fileB200]).1.nodes 0).nX0 = some 1 ∧
    (nodeAt (loadDatabase [fileA100, fileB200]).1.nodes 0).nX1 = none ∧
    (nodeAt (loadDatabase [fileA100, fileB200]).1.nodes 1).nX1 = some 0 ∧
    (nodeAt (loadDatabase [fileA100, fileB200]).1.nodes 1).nX0 = none := by
  decide

/-- C5 amended: the nested three-way comparison always selects an axis
whose absolute delta is the maximum of the three, and the direction
index is `Δ < 0 ? 0 : 1` on the chosen axis; but the tie precedence is
the REVERSE of the claimed `X > Y > Z`: X is chosen only when `|Δiso|`
strictly exceeds both others, Y only when `|Δshutter| ≥ |Δiso|` and
`|Δshutter|` strictly exceeds `|Δaperture|`, and Z in all remaining
cases (so on ties the later-compared axis wins). -/
theorem C5_amended (dX dY dZ : ℚ) :
    |deltaOf dX dY dZ (chooseAxisLR dX dY dZ).1| = max (max |dX| |dY|) |dZ| ∧
    ((chooseAxisLR dX dY dZ).1 = Axis.X ↔ |dY| < |dX| ∧ |dZ| < |dX|) ∧
    ((chooseAxisLR dX dY dZ).1 = Axis.Y ↔ |dX| ≤ |dY| ∧ |dZ| < |dY|) ∧
    ((chooseAxisLR dX dY dZ).1 = Axis.Z ↔
      ((|dY| < |dX| ∧ |dX| ≤ |dZ|) ∨ (|dX| ≤ |dY| ∧ |dY| ≤ |dZ|))) ∧
    (chooseAxisLR dX dY dZ).2 =
      (if deltaOf dX dY dZ (chooseAxisLR dX dY dZ).1 < 0 then 0 else 1) := by
  unfold chooseAxisLR
  by_cases h1 : |dX| > |dY|
  · by_cases h2 : |dX| > |dZ|
    · rw [if_pos h1, if_pos h2]
      refine ⟨?_, ?_, ?_, ?_, rfl⟩
      · dsimp [deltaOf]
        rw [max_eq_left (le_of_lt h1), max_eq_left (le_of_lt h2)]
      · exact ⟨fun _ => ⟨h1, h2⟩, fun _ => rfl⟩
      · exact ⟨fun hc => absurd hc (by simp),
          fun hy => absurd hy.1 (not_le.mpr h1)⟩
      · refine ⟨fun hc => absurd hc (by simp), ?_⟩
        rintro (⟨-, hz⟩ | ⟨hxy, -⟩)
        · exact absurd hz (not_le.mpr h2)
        · exact absurd hxy (not_le.mpr h1)
    · rw [if_pos h1, if_neg h2]
      refine ⟨?_, ?_, ?_, ?_, rfl⟩
      · dsimp [deltaOf]
        rw [max_eq_left (le_of_lt h1), max_eq_right (not_lt.mp h2)]
      · exact ⟨fun hc => absurd hc (by simp),
          fun hx => absurd (lt_of_lt_of_le hx.2 (not_lt.mp h2)) (lt_irrefl _)⟩
      · exact ⟨fun hc => absurd hc (by simp),
          fun hy => absurd hy.1 (not_le.mpr h1)⟩
      · exact ⟨fun _ => Or.inl ⟨h1, not_lt.mp h2⟩, fun _ => rfl⟩
  · by_cases h3 : |dY| > |dZ|
    · rw [if_neg h1, if_pos h3]
      refine ⟨?_, ?_, ?_, ?_, rfl⟩
      · dsimp [deltaOf]
        rw [max_eq_right (not_lt.mp h1), max_eq_left (le_of_lt h3)]
      · exact ⟨fun hc => absurd hc (by simp),
          fun hx => absurd hx.1 (not_lt.mp h1).not_lt⟩
      · exact ⟨fun _ => ⟨not_lt.mp h1, h3⟩, fun _ => rfl⟩
      · refine ⟨fun hc => absurd hc (by simp), ?_⟩
        rintro (⟨hyx, -⟩ | ⟨-, hyz⟩)
        · exact absurd hyx (not_lt.mp h1).not_lt
        · exact absurd hyz (not_le.mpr h3)
    · rw [if_neg h1, if_neg h3]
      refine ⟨?_, ?_, ?_, ?_, rfl⟩
      · dsimp [deltaOf]
        rw [max_eq_right (not_lt.mp h1), max_eq_right (not_lt.mp h3)]
      · exact ⟨fun hc => absurd hc (by simp),
          fun hx => absurd hx.1 (not_lt.mp h1).not_lt⟩
      · exact ⟨fun hc => absurd hc (by simp),
          fun hy => absurd hy.2 (not_lt.mp h3).not_lt⟩
      · exact ⟨fun _ => Or.inr ⟨not_lt.mp h1, not_lt.mp h3⟩, fun _ => rfl⟩

/-- C4 (code bug, evaluated at the failing input): on the two-sample
database A = (ISO 100, 1s, f/1.0) and B = (ISO 200, 1s, f/1.0),
construction does select A as root, but the links are the OPPOSITE of
the claimed ones (`A.neighborX[0] = B`, `B.neighborX[1] = A`, and
`A.neighborX[1]` stays empty); consequently `PrepareCalibrationFor
(150, 1, 1)` — whose walk compares node EVs against the raw ISO 150
and finds no X "next" on A — starts at A with a fully degenerate cell,
and the X interpolation factor is clamped to 1 for every EV-X target
at least `1e-6` (in particular for `log2 1.5 ≈ 0.585`), not `≈ 0.585`
as claimed. -/
theorem C4_two_sample_scenario (evx : ℚ) (h : 1 / 1000000 ≤ evx) :
    (loadDatabase [fileA100, fileB200]).2 = none ∧
    (loadDatabase [fileA100, fileB200]).1.rootIdx = some 0 ∧
    (nodeAt (loadDatabase [fileA100, fileB200]).1.nodes 0).nX0 = some 1 ∧
    (nodeAt (loadDatabase [fileA100, fileB200]).1.nodes 0).nX1 = none ∧
    (nodeAt (loadDatabase [fileA100, fileB200]).1.nodes 1).nX1 = some 0 ∧
    FindStartNode (loadDatabase [fileA100, fileB200]).1.nodes 0 150 1 1 = 0 ∧
    (tXof (loadDatabase [fileA100, fileB200]).1.nodes
        (buildCell (loadDatabase [fileA100, fileB200]).1.nodes
          (FindStartNode (loadDatabase [fileA100, fileB200]).1.nodes 0 150 1 1))
        evx).1 = 1 := by
  have hstart :
      FindStartNode (loadDatabase [fileA100, fileB200]).1.nodes 0 150 1 1 = 0 := by
    decide
  refine ⟨by decide, by decide, by decide, by decide, by decide, hstart, ?_⟩
  rw [hstart]
  have hcell : buildCell (loadDatabase [fileA100, fileB200]).1.nodes 0 =
      { g000 := 0, g100 := 0, g010 := 0, g001 := 0
        g110 := 0, g011 := 0, g101 := 0, g111 := 0 } := by decide
  rw [hcell]
  show interpFactor evx (nodeAt (loadDatabase [fileA100, fileB200]).1.nodes 0).evISO
      (nodeAt (loadDatabase [fileA100, fileB200]).1.nodes 0).evISO = 1
  have h0 : (nodeAt (loadDatabase [fileA100, fileB200]).1.nodes 0).evISO = 0 := by
    decide
  rw [h0]
  unfold interpFactor
  rw [sub_zero, sub_self,
    show max (1 / 1000000 : ℚ) 0 = 1 / 1000000 from max_eq_left (by norm_num)]
  have hx : (1 : ℚ) ≤ evx / (1 / 1000000) := by
    rw [div_eq_mul_inv, show ((1 : ℚ) / 1000000)⁻¹ = 1000000 by norm_num]
    linarith
  rw [min_eq_left hx]
  exact max_eq_right zero_le_one

/-- C4 witness: at the EV-X target 0.585 (the rational approximation
of log2 1.5 named by the scenario), the computed X factor is 1. -/
theorem C4_two_sample_scenario_witness :
    (tXof (loadDatabase [fileA100, fileB200]).1.nodes
        (buildCell (loadDatabase [fileA100, fileB200]).1.nodes
          (FindStartNode (loadDatabase [fileA100, fileB200]).1.nodes 0 150 1 1))
        (585 / 1000)).1 = 1 :=
  (C4_two_sample_scenario (585 / 1000) (by decide)).2.2.2.2.2.2

/-- C1 (code bug, evaluated at the failing input): the EV conversions
of the two samples are exactly (0,0,0) and (1,0,0); the two-sample
graph builds successfully; yet preparing for B's exact shot
parameters (ISO 200, 1s, f/1.0) yields A's probe luminances
[10,...], not B's [20,...]: interpolation at a lattice point is NOT
exact, because `FindStartNode` compares node EV values against the
raw shot parameters and the construction step linked the higher-EV
node into the "previous" slot, so the walk never reaches B. -/
theorem C1_roundtrip_fails :
    Convert2EV 100 1 1 0 0 0 ∧
    Convert2EV 200 1 1 1 0 0 ∧
    (loadDatabase [fileA100, fileB200]).2 = none ∧
    fileB200.calib.reflectances = [20, 20, 20, 20, 20, 20] ∧
    (PrepareCalibrationFor (loadDatabase [fileA100, fileB200]).1 200 1 1 1 0 0).map
        (fun s => s.interpolatedCalibration) =
      Except.ok (some [10, 10, 10, 10, 10, 10]) ∧
    ([10, 10, 10, 10, 10, 10] : List ℚ) ≠ [20, 20, 20, 20, 20, 20] := by
  refine ⟨⟨?_, ?_, ?_⟩, ⟨?_, ?_, ?_⟩, by decide, by decide, ?_, by decide⟩
  · push_cast
    rw [show (100 : ℝ) / 100 = 1 by norm_num, Real.logb_one]
  · push_cast
    rw [Real.logb_one]
  · push_cast
    rw [Real.logb_one, neg_zero]
  · push_cast
    rw [show (200 : ℝ) / 100 = 2 by norm_num,
      Real.logb_self_eq_one (by norm_num)]
  · push_cast
    rw [Real.logb_one]
  · push_cast
    rw [Real.logb_one, neg_zero]
  · decide

/-- C2 counterexample: in the two-sample database below, the root has
EV-X 2 and its X "next" slot is set, yet with X target 1 the X walk
stops at the root immediately: the walk's result violates "stops at a
node whose own axis EV value is ≤ the target, or at the last node if
the chain ends" — its own EV-X exceeds the target and the chain
continues. -/
theorem C2_counterexample :
    (loadDatabase [fileHigh, fileLow]).2 = none ∧
    (loadDatabase [fileHigh, fileLow]).1.rootIdx = some 0 ∧
    walkNext (loadDatabase [fileHigh, fileLow]).1.nodes Axis.X 1
      (loadDatabase [fileHigh, fileLow]).1.nodes.length 0 = 0 ∧
    FindStartNode (loadDatabase [fileHigh, fileLow]).1.nodes 0 1 1000 1000 = 0 ∧
    ¬ ((nodeAt (loadDatabase [fileHigh, fileLow]).1.nodes 0).axisEV Axis.X ≤ 1) ∧
    (nodeAt (loadDatabase [fileHigh, fileLow]).1.nodes 0).neighbor Axis.X 1 ≠
      none := by
  decide

/-- C2 amended: `FindStartNode` is the composition of three sequential
greedy walks (X from the root, then Y, then Z, each starting from the
node the previous walk reached), and each walk stops either (i) at a
node whose own axis EV is ≤ the target and whose "next" link is
missing or exceeds the target, or (ii) at the walk's starting node
when that node's own axis EV already exceeds the target — the case
the original claim omits — or (iii) having consumed its step budget
mid-chain (the embedding's fuel, one step per node; the C# loop has
no such budget and would not terminate on a cyclic chain). -/
theorem C2_amended :
    (∀ (nodes : List GridNode) (root : ℕ) (i s a : ℚ),
        FindStartNode nodes root i s a =
          walkNext nodes Axis.Z a nodes.length
            (walkNext nodes Axis.Y s nodes.length
              (walkNext nodes Axis.X i nodes.length root))) ∧
    (∀ (nodes : List GridNode) (a : Axis) (t : ℚ) (fuel cur : ℕ),
        ((nodeAt nodes (walkNext nodes a t fuel cur)).axisEV a ≤ t ∧
            ((nodeAt nodes (walkNext nodes a t fuel cur)).neighbor a 1 = none ∨
              ∃ nxt,
                (nodeAt nodes (walkNext nodes a t fuel cur)).neighbor a 1 =
                  some nxt ∧
                t < (nodeAt nodes nxt).axisEV a)) ∨
        (walkNext nodes a t fuel cur = cur ∧
          t < (nodeAt nodes cur).axisEV a) ∨
        ((nodeAt nodes (walkNext nodes a t fuel cur)).axisEV a ≤ t ∧
          ∃ nxt,
            (nodeAt nodes (walkNext nodes a t fuel cur)).neighbor a 1 =
              some nxt ∧
            (nodeAt nodes nxt).axisEV a ≤ t)) := by
  constructor
  · intro nodes root i s a
    rfl
  · intro nodes a t fuel
    induction fuel with
    | zero =>
      intro cur
      by_cases hle : (nodeAt nodes cur).axisEV a ≤ t
      · cases hnb : (nodeAt nodes cur).neighbor a 1 with
        | none => exact Or.inl ⟨hle, Or.inl hnb⟩
        | some nxt =>
          by_cases hx : t < (nodeAt nodes nxt).axisEV a
          · exact Or.inl ⟨hle, Or.inr ⟨nxt, hnb, hx⟩⟩
          · exact Or.inr (Or.inr ⟨hle, nxt, hnb, not_lt.mp hx⟩)
      · exact Or.inr (Or.inl ⟨rfl, not_le.mp hle⟩)
    | succ fuel ih =>
      intro cur
      by_cases hle : (nodeAt nodes cur).axisEV a ≤ t
      · cases hnb : (nodeAt nodes cur).neighbor a 1 with
        | none =>
          have hw : walkNext nodes a t (fuel + 1) cur = cur := by
            simp [walkNext, hle, hnb]
          rw [hw]
          exact Or.inl ⟨hle, Or.inl hnb⟩
        | some nxt =>
          by_cases hx : t < (nodeAt nodes nxt).axisEV a
          · have hw : walkNext nodes a t (fuel + 1) cur = cur := by
              simp [walkNext, hle, hnb, hx]
            rw [hw]
            exact Or.inl ⟨hle, Or.inr ⟨nxt, hnb, hx⟩⟩
          · have hw : walkNext nodes a t (fuel + 1) cur =
                walkNext nodes a t fuel nxt := by
              simp [walkNext, hle, hnb, hx]
            rw [hw]
            rcases ih nxt with hp | ⟨heq, hgt⟩ | hf
            · exact Or.inl hp
            · rw [heq]
              exact absurd hgt hx
            · exact Or.inr (Or.inr hf)
      · have hw : walkNext nodes a t (fuel + 1) cur = cur := by
          simp [walkNext, hle]
        rw [hw]
        exact Or.inr (Or.inl ⟨rfl, not_le.mp hle⟩)

/-- C6: no neighbor slot is ever overwritten during construction.
First conjunct: the placement step aborts with the duplicate-neighbor
fatal error exactly when the target slot on the placed node is
already occupied.  Second conjunct: for EVERY input file list, the
whole load-and-build run coincides with the strict variant that also
faults when the second, unchecked symmetric store would hit an
occupied slot — so in every run (successful or aborted) no slot of
any node is ever assigned more than once. -/
theorem C6_no_slot_overwrite :
    (∀ (nodes : List GridNode) (p u : ℕ),
        placeStep nodes p u = Except.error GridError.duplicateNeighbor ↔
          ((nodeAt nodes p).neighbor (stepAxisLR nodes p u).1
            (stepAxisLR nodes p u).2).isSome = true) ∧
    (∀ files : List CalibrationFile,
        loadDatabaseStrict files = loadDatabase files) := by
  refine ⟨placeStep_error_iff, ?_⟩
  intro files
  have hemp := loadNodes_slotsEmpty files [] none
    (fun i => ⟨rfl, rfl, rfl, rfl, rfl, rfl⟩)
  simp only [loadDatabase, loadDatabaseStrict]
  rcases hld : loadNodes files [] none with ⟨ns, root⟩
  rw [hld] at hemp
  cases root with
  | none => rfl
  | some r =>
    dsimp only
    rw [buildLoop_eq_strict ((List.range ns.length).erase r).length ns [r]
      ((List.range ns.length).erase r)
      (fun v _ => hemp v)
      (List.Nodup.erase r (List.nodup_range ns.length))
      (fun x hx => by
        have hxr : x = r := by simpa using hx
        subst hxr
        exact List.Nodup.not_mem_erase (List.nodup_range ns.length))]

/-- C8: on a successfully built database, `PrepareCalibrationFor`
never fails for any positive shot parameters: it returns a state
carrying an interpolated calibration with one luminance per required
probe; every interpolation factor is clamped to [0, 1] (so targets
beyond the lattice extent saturate at the boundary); and a missing
"next" neighbor while assembling the 8-corner cell is replaced by the
node itself, not treated as an error. -/
theorem C8_prepare_never_fails (files : List CalibrationFile) (st : DBState)
    (h : loadDatabase files = (st, none)) (r : ℕ) (hr : st.rootIdx = some r)
    (iso shutter aperture evX evY evZ : ℚ)
    (hiso : 0 < iso) (hshutter : 0 < shutter) (haperture : 0 < aperture) :
    (∃ st', PrepareCalibrationFor st iso shutter aperture evX evY evZ =
        Except.ok st' ∧
      ∃ lums, st'.interpolatedCalibration = some lums ∧
        lums.length = REQUIRED_PROBES_COUNT) ∧
    (∀ t lo hi : ℚ, 0 ≤ interpFactor t lo hi ∧ interpFactor t lo hi ≤ 1) ∧
    (∀ (ns : List GridNode) (s : ℕ),
        ((nodeAt ns s).neighbor Axis.X 1 = none → (buildCell ns s).g100 = s) ∧
        ((nodeAt ns s).neighbor Axis.Y 1 = none → (buildCell ns s).g010 = s) ∧
        ((nodeAt ns s).neighbor Axis.Z 1 = none → (buildCell ns s).g001 = s)) := by
  refine ⟨?_, ?_, ?_⟩
  · unfold PrepareCalibrationFor
    rw [hr]
    refine ⟨_, rfl, _, rfl, ?_⟩
    simp [interpolateCell, REQUIRED_PROBES_COUNT]
  · intro t lo hi
    constructor
    · exact le_max_left 0 _
    · exact max_le (by norm_num) (min_le_left 1 _)
  · intro ns s
    refine ⟨fun hx => ?_, fun hy => ?_, fun hz => ?_⟩
    · simp [buildCell, hx]
    · simp [buildCell, hy]
    · simp [buildCell, hz]

/-- C8 witness: the two-sample database, prepared for shot parameters
far beyond the lattice extent. -/
theorem C8_prepare_never_fails_witness :
    (∃ st', PrepareCalibrationFor (loadDatabase [fileA100, fileB200]).1
        3200 30 16 5 5 (-4) = Except.ok st' ∧
      ∃ lums, st'.interpolatedCalibration = some lums ∧
        lums.length = REQUIRED_PROBES_COUNT) ∧
    (∀ t lo hi : ℚ, 0 ≤ interpFactor t lo hi ∧ interpFactor t lo hi ≤ 1) ∧
    (∀ (ns : List GridNode) (s : ℕ),
        ((nodeAt ns s).neighbor Axis.X 1 = none → (buildCell ns s).g100 = s) ∧
        ((nodeAt ns s).neighbor Axis.Y 1 = none → (buildCell ns s).g010 = s) ∧
        ((nodeAt ns s).neighbor Axis.Z 1 = none → (buildCell ns s).g001 = s)) :=
  C8_prepare_never_fails [fileA100, fileB200] (loadDatabase [fileA100, fileB200]).1
    (by decide) 0 (by decide) 3200 30 16 5 5 (-4)
    (by decide) (by decide) (by decide)

end CameraCalibrationDatabase
